import Mathlib

/-!
Verification of the OVMS ABRP live-data plugin
(src/plugin/abrp/sendlivedata2abrp.js).

The JavaScript module is embedded shallowly:
- a telemetry record mirrors the object built by getTelemetry: JS numbers
  become integers (the gate logic uses only decidable equality of field
  values and the zero test on soh + soc, both of which are independent of
  the numeric domain), toFixed results become strings, Math.floor(soc)
  becomes an integer;
- the change gate isTelemetryValidAndHasChanged is translated directly,
  including its list of watched field names and the dynamic field lookup;
- the module-level mutable variables (subscription handles, current
  telemetry, memoized configuration) become an explicit state record, the
  PubSub bus becomes a handle counter plus a list of active subscriptions,
  and external effects (HTTP sends, notifications, prints) are collected in
  a trace;
- host primitives that can throw (metric reads, HTTP.Request,
  PubSub.subscribe and PubSub.unsubscribe) are driven by fault-injection
  fields of an environment record, and the try/catch blocks of the source
  become explicit error propagation plus a catch wrapper.
-/

/-- A JavaScript exception value; only the message field is observed. -/
structure JsError where
  message : String
deriving DecidableEq, Repr

/-- A JavaScript value appearing in a telemetry field: a number or a string. -/
inductive JsValue where
  | num (v : Int)
  | str (s : String)
deriving DecidableEq, Repr

/-- The telemetry record built by getTelemetry.  JS numbers are modelled as
integers; lat, lon, alt and power are strings because the source formats
them with toFixed; soc is the result of Math.floor. -/
structure Telemetry where
  utc : Int
  soc : Int
  soh : Int
  speed : Int
  car_model : String
  lat : String
  lon : String
  alt : String
  ext_temp : Int
  is_charging : Int
  batt_temp : Int
  voltage : Int
  current : Int
  power : String
deriving DecidableEq, Repr

/-- The names of the watched fields, as in telemetryChangedIndicators. -/
inductive Indicator where
  | soc | soh | lat | lon | alt | is_charging | batt_temp | ext_temp
deriving DecidableEq, Repr

/-- The telemetryChangedIndicators array of the source. -/
def telemetryChangedIndicators : List Indicator :=
  [.soc, .soh, .lat, .lon, .alt, .is_charging, .batt_temp, .ext_temp]

/-- Dynamic field lookup previousTelemetry[indicator] of the source. -/
def Telemetry.field (t : Telemetry) : Indicator → JsValue
  | .soc => .num t.soc
  | .soh => .num t.soh
  | .lat => .str t.lat
  | .lon => .str t.lon
  | .alt => .str t.alt
  | .is_charging => .num t.is_charging
  | .batt_temp => .num t.batt_temp
  | .ext_temp => .num t.ext_temp

/-- Translation of isTelemetryValidAndHasChanged: reject when soh + soc is
zero (canbus unreadable), otherwise report whether some watched field
differs between the previous and the next telemetry. -/
def isTelemetryValidAndHasChanged (previousTelemetry nextTelemetry : Telemetry) : Bool :=
  if nextTelemetry.soh + nextTelemetry.soc = 0 then
    false
  else
    telemetryChangedIndicators.any fun indicator =>
      previousTelemetry.field indicator != nextTelemetry.field indicator

/-- The send condition of sendTelemetry:
not currentTelemetry, or forceAbrpUpdate, or valid-and-changed. -/
def shouldSend : Option Telemetry → Telemetry → Bool → Bool
  | none, _, _ => true
  | some previous, next, force => force || isTelemetryValidAndHasChanged previous next

/-- Spec-side formulation of the watched-field comparison: one boolean per
field of the watched set, following the wording of the specification. -/
def watchedDiffers (a b : Telemetry) : Bool :=
  a.soc != b.soc || a.soh != b.soh || a.lat != b.lat || a.lon != b.lon ||
    a.alt != b.alt || a.is_charging != b.is_charging ||
    a.batt_temp != b.batt_temp || a.ext_temp != b.ext_temp

theorem num_bne (x y : Int) : (JsValue.num x != JsValue.num y) = (x != y) := by
  rw [Bool.eq_iff_iff]
  simp only [bne_iff_ne, ne_eq, JsValue.num.injEq]

theorem str_bne (x y : String) : (JsValue.str x != JsValue.str y) = (x != y) := by
  rw [Bool.eq_iff_iff]
  simp only [bne_iff_ne, ne_eq, JsValue.str.injEq]

theorem isValid_eq_watchedDiffers (prev next : Telemetry)
    (h : next.soh + next.soc ≠ 0) :
    isTelemetryValidAndHasChanged prev next = watchedDiffers prev next := by
  unfold isTelemetryValidAndHasChanged watchedDiffers telemetryChangedIndicators
  rw [if_neg h]
  simp only [List.any_cons, List.any_nil, Telemetry.field, Bool.or_false,
    num_bne, str_bne, Bool.or_assoc]

theorem watchedDiffers_false_isValid (a b : Telemetry)
    (h : watchedDiffers a b = false) :
    isTelemetryValidAndHasChanged a b = false := by
  by_cases hz : b.soh + b.soc = 0
  · unfold isTelemetryValidAndHasChanged
    rw [if_pos hz]
  · rw [isValid_eq_watchedDiffers a b hz, h]

/-- A concrete telemetry sample used for witnesses. -/
def sampleA : Telemetry :=
  { utc := 100, soc := 50, soh := 95, speed := 0, car_model := "leaf",
    lat := "37.771", lon := "-122.431", alt := "10.0", ext_temp := 20,
    is_charging := 0, batt_temp := 21, voltage := 360, current := 1,
    power := "0.4" }

/-- sampleA with only the charging flag changed (a watched field). -/
def sampleB : Telemetry := { sampleA with is_charging := 1 }

/-- sampleA with only the speed changed (an unwatched field). -/
def sampleC : Telemetry := { sampleA with speed := 42 }

/-- A sensor-dropout sample: soc and soh both read as zero. -/
def invalidSample : Telemetry := { sampleA with soc := 0, soh := 0 }

example : isTelemetryValidAndHasChanged sampleA sampleB = true := by decide
example : isTelemetryValidAndHasChanged sampleA sampleC = false := by decide
example : isTelemetryValidAndHasChanged sampleA sampleA = false := by decide
example : isTelemetryValidAndHasChanged sampleA invalidSample = false := by decide
example : shouldSend none invalidSample false = true := by decide

/-- C1: for every non-null previous sample and every next sample whose
soh + soc is nonzero, the unforced change gate accepts exactly when one of
the eight watched fields (soc, soh, lat, lon, alt, is_charging, batt_temp,
ext_temp) differs; unwatched fields such as speed, voltage or current never
cause a send, and an identical sample is not resent. -/
theorem changeGate_accepts_iff_watched_field_differs
    (prev next : Telemetry) (h : next.soh + next.soc ≠ 0) :
    shouldSend (some prev) next false = watchedDiffers prev next := by
  simp only [shouldSend, Bool.false_or]
  exact isValid_eq_watchedDiffers prev next h

theorem changeGate_accepts_iff_watched_field_differs_witness :
    sampleB.soh + sampleB.soc ≠ 0 ∧
      shouldSend (some sampleA) sampleB false = watchedDiffers sampleA sampleB :=
  ⟨by decide, changeGate_accepts_iff_watched_field_differs sampleA sampleB (by decide)⟩

/-- The url, user_token and car_model configuration values. -/
structure Configuration where
  url : String
  user_token : String
  car_model : String
deriving DecidableEq, Repr

/-- The PubSub bus: a fresh-handle counter and the active subscriptions,
each a pair of a handle and a topic string. -/
structure BusState where
  nextHandle : Nat
  active : List (Nat × String)
deriving DecidableEq, Repr

/-- PubSub.subscribe: returns a fresh handle and records the binding. -/
def BusState.subscribe (bus : BusState) (topic : String) : Nat × BusState :=
  (bus.nextHandle,
    { nextHandle := bus.nextHandle + 1, active := (bus.nextHandle, topic) :: bus.active })

/-- PubSub.unsubscribe: removes the binding held by the given handle. -/
def BusState.unsubscribe (bus : BusState) (handle : Nat) : BusState :=
  { bus with active := bus.active.filter fun p => p.1 != handle }

/-- Number of live subscriptions on a given topic. -/
def BusState.countTopic (bus : BusState) (topic : String) : Nat :=
  bus.active.countP fun p => p.2 == topic

def tickerTopic : String := "ticker.60"
def vehicleOnTopic : String := "vehicle.on"
def vehicleOffTopic : String := "vehicle.off"

/-- The module-level mutable variables of sendlivedata2abrp.js. -/
structure ModuleState where
  vehicleOnSubscription : Option Nat
  vehicleOffSubscription : Option Nat
  tickerSubscription : Option Nat
  currentTelemetry : Option Telemetry
  configuration : Option Configuration
deriving DecidableEq, Repr

/-- The whole system: module variables plus the PubSub bus. -/
structure Sys where
  bus : BusState
  mod : ModuleState
deriving DecidableEq, Repr

/-- The external world during one operation: the telemetry the metrics
would yield, the stored configuration values, and fault-injection fields
for each host primitive that can throw. -/
structure Env where
  sample : Telemetry
  configValues : Configuration
  metricsThrow : Option JsError
  httpThrow : Option JsError
  subscribeThrow : Option JsError
  unsubscribeThrow : Option JsError
deriving DecidableEq, Repr

/-- Observable external effects, in order of occurrence. -/
inductive Effect where
  | log (msg : String)
  | notify (severity channel message : String)
  | httpSend (telemetry : Telemetry)
  | commitTelemetry (telemetry : Telemetry)
deriving DecidableEq, Repr

/-- handleError: print the context and raise an error-severity user
notification on the usr.abrp.status channel. -/
def handleError (error : JsError) (context : String) : List Effect :=
  [.log (context ++ " error"),
   .notify "error" "usr.abrp.status" (context ++ " error  - " ++ error.message)]

/-- loadConfig: memoize the configuration on first use. -/
def loadConfig (env : Env) (st : ModuleState) :
    Configuration × ModuleState × List Effect :=
  match st.configuration with
  | some c => (c, st, [])
  | none =>
      (env.configValues, { st with configuration := some env.configValues },
        [.log "Config"])

/-- unloadConfig: drop the memoized configuration. -/
def unloadConfig (st : ModuleState) : ModuleState :=
  { st with configuration := none }

/-- Result of a step that yields a value or throws, updating state and
emitting effects either way. -/
structure FetchOutcome where
  result : Except JsError Telemetry
  st : ModuleState
  effects : List Effect

/-- getTelemetry: loads the configuration, then reads the metrics; a
metrics read may throw, which is driven by the environment. -/
def getTelemetry (env : Env) (st : ModuleState) : FetchOutcome :=
  let c := loadConfig env st
  match env.metricsThrow with
  | some e => { result := .error e, st := c.2.1, effects := c.2.2 }
  | none => { result := .ok env.sample, st := c.2.1, effects := c.2.2 }

/-- Result of an operation body that may throw. -/
structure Outcome where
  err : Option JsError
  st : ModuleState
  effects : List Effect

/-- updateAbrp: load the configuration, print the target url and issue the
HTTP request; HTTP.Request may throw synchronously. -/
def updateAbrp (env : Env) (st : ModuleState) (telemetry : Telemetry) : Outcome :=
  let c := loadConfig env st
  let effs := c.2.2 ++ [.log ("Sending to " ++ c.1.url)]
  match env.httpThrow with
  | some e => { err := some e, st := c.2.1, effects := effs }
  | none => { err := none, st := c.2.1, effects := effs ++ [.httpSend telemetry] }

/-- The done callback of the HTTP request: on a non-200 status it reports
an error, otherwise it does nothing; it touches no state. -/
def updateAbrpOnDone (statusCode : Int) (sys : Sys) : Sys × List Effect :=
  (sys,
    if statusCode ≠ 200 then
      handleError { message := "Unexpected status code" } "Http request"
    else [])

/-- The fail callback of the HTTP request: it calls handleError and
touches no state. -/
def updateAbrpOnFail (error : JsError) (sys : Sys) : Sys × List Effect :=
  (sys, handleError error "HTTP request")

/-- The body of sendTelemetry before its try/catch: capture telemetry,
consult the send condition, and on acceptance commit currentTelemetry and
call updateAbrp. -/
def sendTelemetryBody (forceAbrpUpdate : Bool) (env : Env) (st : ModuleState) : Outcome :=
  let f := getTelemetry env st
  match f.result with
  | .error e => { err := some e, st := f.st, effects := f.effects }
  | .ok telemetry =>
      if shouldSend f.st.currentTelemetry telemetry forceAbrpUpdate then
        let st1 := { f.st with currentTelemetry := some telemetry }
        let o := updateAbrp env st1 telemetry
        { err := o.err, st := o.st,
          effects := f.effects ++ Effect.commitTelemetry telemetry :: o.effects }
      else
        { err := none, st := f.st, effects := f.effects }

/-- sendTelemetry: the body wrapped in try/catch; a caught error is logged
and raised as an error notification, and never propagates. -/
def sendTelemetry (forceAbrpUpdate : Bool) (env : Env) (st : ModuleState) :
    ModuleState × List Effect :=
  let o := sendTelemetryBody forceAbrpUpdate env st
  match o.err with
  | none => (o.st, o.effects)
  | some e => (o.st, o.effects ++ handleError e "Send telemetry")

/-- A concrete configuration used in witness environments. -/
def configA : Configuration :=
  { url := "http://api.iternio.example", user_token := "tok", car_model := "leaf" }

/-- A fault-free environment producing sampleB. -/
def envB : Env :=
  { sample := sampleB, configValues := configA, metricsThrow := none,
    httpThrow := none, subscribeThrow := none, unsubscribeThrow := none }

/-- A fault-free environment producing the sensor-dropout sample. -/
def envInvalid : Env := { envB with sample := invalidSample }

/-- The state of the module variables right after load: every handle and
every memoized value is null. -/
def initialModuleState : ModuleState :=
  { vehicleOnSubscription := none, vehicleOffSubscription := none,
    tickerSubscription := none, currentTelemetry := none, configuration := none }

/-- The bus with no subscription at all. -/
def initialBus : BusState := { nextHandle := 0, active := [] }

/-- The whole system in its idle initial state. -/
def initialSys : Sys := { bus := initialBus, mod := initialModuleState }

/-- C2 counterexample: with a null previous sample the gate accepts even a
sensor-dropout sample (soh + soc = 0), so the claimed rejection does not
hold for prev = null. -/
theorem invalid_sample_rejected_regardless_of_prev_cex :
    shouldSend none invalidSample false = true := by decide

/-- C2 amended: for every sensor-dropout sample (soh + soc = 0) and every
NON-NULL previous accepted sample, the unforced gate rejects. -/
theorem invalid_sample_rejected_for_nonnull_prev
    (prev s : Telemetry) (h : s.soh + s.soc = 0) :
    shouldSend (some prev) s false = false := by
  simp only [shouldSend, Bool.false_or]
  unfold isTelemetryValidAndHasChanged
  rw [if_pos h]

theorem invalid_sample_rejected_for_nonnull_prev_witness :
    invalidSample.soh + invalidSample.soc = 0 ∧
      shouldSend (some sampleA) invalidSample false = false :=
  ⟨by decide, invalid_sample_rejected_for_nonnull_prev sampleA invalidSample (by decide)⟩

/-- C3: when no previous sample is accepted, the unforced gate accepts,
and a fault-free unforced sample-and-send cycle issues the HTTP send. -/
theorem first_sample_always_sent (env : Env) (st : ModuleState)
    (hm : env.metricsThrow = none) (hh : env.httpThrow = none)
    (hc : st.currentTelemetry = none) :
    shouldSend none env.sample false = true ∧
      Effect.httpSend env.sample ∈ (sendTelemetry false env st).2 := by
  refine ⟨rfl, ?_⟩
  rcases hcfg : st.configuration with _ | c <;>
    simp [sendTelemetry, sendTelemetryBody, getTelemetry, loadConfig, updateAbrp,
      hm, hh, hc, hcfg, shouldSend]

theorem first_sample_always_sent_witness :
    shouldSend none envB.sample false = true ∧
      Effect.httpSend envB.sample ∈ (sendTelemetry false envB initialModuleState).2 :=
  first_sample_always_sent envB initialModuleState rfl rfl rfl

/-- C4: a forced send accepts every sample, a sensor-dropout sample
included: the force flag makes the gate true whatever the previous sample
and whatever the validity or the field comparison would say, and a
fault-free forced sample-and-send cycle issues the HTTP send. -/
theorem forced_send_bypasses_validity_guard
    (prev : Option Telemetry) (env : Env) (st : ModuleState)
    (hm : env.metricsThrow = none) (hh : env.httpThrow = none) :
    shouldSend prev env.sample true = true ∧
      Effect.httpSend env.sample ∈ (sendTelemetry true env st).2 := by
  constructor
  · rcases prev with _ | p <;> simp [shouldSend]
  · rcases hcfg : st.configuration with _ | c <;>
      rcases hcur : st.currentTelemetry with _ | t <;>
      simp [sendTelemetry, sendTelemetryBody, getTelemetry, loadConfig, updateAbrp,
        hm, hh, hcfg, hcur, shouldSend]

theorem forced_send_bypasses_validity_guard_witness :
    shouldSend (some sampleA) envInvalid.sample true = true ∧
      Effect.httpSend envInvalid.sample ∈
        (sendTelemetry true envInvalid initialModuleState).2 :=
  forced_send_bypasses_validity_guard (some sampleA) envInvalid initialModuleState rfl rfl

/-- Result of an operation on the whole system that may throw. -/
structure SysOutcome where
  err : Option JsError
  sys : Sys
  effects : List Effect

/-- The body of startRoute before its try/catch: drop the memoized
configuration, force-send one sample, then subscribe to the ticker topic
unless a ticker subscription is already held, and notify. -/
def startRouteBody (env : Env) (sys : Sys) : SysOutcome :=
  let st1 := unloadConfig sys.mod
  let r := sendTelemetry true env st1
  match r.1.tickerSubscription with
  | some _ =>
      { err := none, sys := { sys with mod := r.1 },
        effects := r.2 ++ [.log "Starting route - subscribed to ticker",
          .notify "info" "usr.abrp.status" "ABRP route started"] }
  | none =>
      match env.subscribeThrow with
      | some e => { err := some e, sys := { sys with mod := r.1 }, effects := r.2 }
      | none =>
          let s := sys.bus.subscribe tickerTopic
          { err := none,
            sys := { bus := s.2, mod := { r.1 with tickerSubscription := some s.1 } },
            effects := r.2 ++ [.log "Starting route - subscribed to ticker",
              .notify "info" "usr.abrp.status" "ABRP route started"] }

/-- startRoute: the body wrapped in try/catch. -/
def startRoute (env : Env) (sys : Sys) : Sys × List Effect :=
  let o := startRouteBody env sys
  match o.err with
  | none => (o.sys, o.effects)
  | some e => (o.sys, o.effects ++ handleError e "Start route")

/-- The body of endRoute before its try/catch: drop the memoized
configuration, clear the current telemetry, then unsubscribe from the
ticker topic when a subscription is held, and notify. -/
def endRouteBody (env : Env) (sys : Sys) : SysOutcome :=
  let st1 := unloadConfig sys.mod
  let st2 := { st1 with currentTelemetry := (none : Option Telemetry) }
  match st2.tickerSubscription with
  | none =>
      { err := none, sys := { sys with mod := st2 },
        effects := [.log "Ending route - unsubscribed from ticker",
          .notify "info" "usr.abrp.status" "ABRP route ended"] }
  | some handle =>
      match env.unsubscribeThrow with
      | some e => { err := some e, sys := { sys with mod := st2 }, effects := [] }
      | none =>
          { err := none,
            sys := { bus := sys.bus.unsubscribe handle,
                     mod := { st2 with tickerSubscription := none } },
            effects := [.log "Ending route - unsubscribed from ticker",
              .notify "info" "usr.abrp.status" "ABRP route ended"] }

/-- endRoute: the body wrapped in try/catch. -/
def endRoute (env : Env) (sys : Sys) : Sys × List Effect :=
  let o := endRouteBody env sys
  match o.err with
  | none => (o.sys, o.effects)
  | some e => (o.sys, o.effects ++ handleError e "End route")

/-- First arm of autoSend(1): subscribe the route start handler to the
vehicle-on topic unless a handle is already held. -/
def autoSendOn (env : Env) (sys : Sys) : SysOutcome :=
  match sys.mod.vehicleOnSubscription with
  | some _ => { err := none, sys := sys, effects := [] }
  | none =>
      match env.subscribeThrow with
      | some e => { err := some e, sys := sys, effects := [] }
      | none =>
          let s := sys.bus.subscribe vehicleOnTopic
          { err := none,
            sys := { bus := s.2,
                     mod := { sys.mod with vehicleOnSubscription := some s.1 } },
            effects := [.log "Vehicle on subscribed to"] }

/-- Second arm of autoSend(1): subscribe the route end handler to the
vehicle-off topic unless a handle is already held. -/
def autoSendOff (env : Env) (sys : Sys) : SysOutcome :=
  match sys.mod.vehicleOffSubscription with
  | some _ => { err := none, sys := sys, effects := [] }
  | none =>
      match env.subscribeThrow with
      | some e => { err := some e, sys := sys, effects := [] }
      | none =>
          let s := sys.bus.subscribe vehicleOffTopic
          { err := none,
            sys := { bus := s.2,
                     mod := { sys.mod with vehicleOffSubscription := some s.1 } },
            effects := [.log "Vehicle off subscribed to"] }

/-- Disable arm of autoSend(0): unsubscribe whichever of the two vehicle
topic handles are held and null them. -/
def autoSendDisable (env : Env) (sys : Sys) : SysOutcome :=
  let step1 : SysOutcome :=
    match sys.mod.vehicleOnSubscription with
    | none => { err := none, sys := sys, effects := [] }
    | some handle =>
        match env.unsubscribeThrow with
        | some e => { err := some e, sys := sys, effects := [] }
        | none =>
            { err := none,
              sys := { bus := sys.bus.unsubscribe handle,
                       mod := { sys.mod with vehicleOnSubscription := none } },
              effects := [] }
  match step1.err with
  | some e => { err := some e, sys := step1.sys, effects := step1.effects }
  | none =>
      match step1.sys.mod.vehicleOffSubscription with
      | none =>
          { err := none, sys := step1.sys,
            effects := step1.effects ++ [.log "Vehicle on and off topics unsubscribed"] }
      | some handle =>
          match env.unsubscribeThrow with
          | some e => { err := some e, sys := step1.sys, effects := step1.effects }
          | none =>
              { err := none,
                sys := { bus := step1.sys.bus.unsubscribe handle,
                         mod := { step1.sys.mod with vehicleOffSubscription := none } },
                effects := step1.effects ++
                  [.log "Vehicle on and off topics unsubscribed"] }

/-- autoSend: with enable true, subscribe the route start and end handlers
to the vehicle-on and vehicle-off topics, each only when its handle is
null; with enable false, unsubscribe whichever handles are held.  The
source wraps none of this in try/catch, so an error propagates. -/
def autoSend (enable : Bool) (env : Env) (sys : Sys) : SysOutcome :=
  if enable then
    let r1 := autoSendOn env sys
    match r1.err with
    | some e => { err := some e, sys := r1.sys, effects := r1.effects }
    | none =>
        let r2 := autoSendOff env r1.sys
        match r2.err with
        | some e => { err := some e, sys := r2.sys, effects := r1.effects ++ r2.effects }
        | none =>
            { err := none, sys := r2.sys,
              effects := r1.effects ++ r2.effects ++
                [.log "Vehicle on and off topics subscribed"] }
  else
    autoSendDisable env sys

/-- Iterated startRoute over a list of environments, one per call. -/
def iterStartRoute : List Env → Sys → Sys
  | [], sys => sys
  | env :: envs, sys => iterStartRoute envs (startRoute env sys).1

theorem countTopic_subscribe_same (bus : BusState) (t : String) :
    ((bus.subscribe t).2).countTopic t = bus.countTopic t + 1 := by
  simp [BusState.subscribe, BusState.countTopic, List.countP_cons]

theorem countTopic_unsubscribe_le (bus : BusState) (handle : Nat) (t : String) :
    (bus.unsubscribe handle).countTopic t ≤ bus.countTopic t := by
  unfold BusState.unsubscribe BusState.countTopic
  exact (List.filter_sublist bus.active).countP_le _

theorem sendTelemetry_preserves_handles (force : Bool) (env : Env) (st : ModuleState) :
    (sendTelemetry force env st).1.tickerSubscription = st.tickerSubscription ∧
    (sendTelemetry force env st).1.vehicleOnSubscription = st.vehicleOnSubscription ∧
    (sendTelemetry force env st).1.vehicleOffSubscription = st.vehicleOffSubscription := by
  by_cases hs : shouldSend st.currentTelemetry env.sample force = true
  all_goals
    rcases hm : env.metricsThrow with _ | e <;>
      rcases hcfg : st.configuration with _ | c <;>
        rcases hh : env.httpThrow with _ | e2 <;>
          simp [sendTelemetry, sendTelemetryBody, getTelemetry, loadConfig, updateAbrp,
            hm, hcfg, hh, hs]

/-- Correspondence between the stored ticker handle and the number of live
ticker subscriptions on the bus. -/
def tickerInv (sys : Sys) : Prop :=
  sys.bus.countTopic tickerTopic =
    match sys.mod.tickerSubscription with
    | some _ => 1
    | none => 0

theorem startRoute_preserves_tickerInv (env : Env) (sys : Sys) (h : tickerInv sys) :
    tickerInv (startRoute env sys).1 := by
  have hpres := (sendTelemetry_preserves_handles true env (unloadConfig sys.mod)).1
  have hun : (unloadConfig sys.mod).tickerSubscription = sys.mod.tickerSubscription := rfl
  rw [hun] at hpres
  rcases htk : (sendTelemetry true env (unloadConfig sys.mod)).1.tickerSubscription
    with _ | h0
  · have hnone : sys.mod.tickerSubscription = none := by rw [← hpres, htk]
    rcases hsub : env.subscribeThrow with _ | e
    · unfold tickerInv at h ⊢
      rw [hnone] at h
      simp [startRoute, startRouteBody, htk, hsub, countTopic_subscribe_same, h]
    · unfold tickerInv at h ⊢
      rw [hnone] at h
      simp [startRoute, startRouteBody, htk, hsub, h]
  · have hsome : sys.mod.tickerSubscription = some h0 := by rw [← hpres, htk]
    unfold tickerInv at h ⊢
    rw [hsome] at h
    simp [startRoute, startRouteBody, htk, h]

theorem iterStartRoute_tickerInv (envs : List Env) :
    ∀ sys : Sys, tickerInv sys → tickerInv (iterStartRoute envs sys) := by
  induction envs with
  | nil => intro sys h; exact h
  | cons e es ih =>
      intro sys h
      exact ih _ (startRoute_preserves_tickerInv e sys h)

/-- C5: whatever sequence of startRoute calls happens with no intervening
endRoute, at most one live ticker subscription ever exists on the bus: a
re-entrant startRoute finds the ticker handle non-null and does not
subscribe again. -/
theorem at_most_one_ticker_subscription (envs : List Env) :
    (iterStartRoute envs initialSys).bus.countTopic tickerTopic ≤ 1 := by
  have h := iterStartRoute_tickerInv envs initialSys
    (by simp [tickerInv, initialSys, initialBus, initialModuleState, BusState.countTopic])
  unfold tickerInv at h
  rcases htk : (iterStartRoute envs initialSys).mod.tickerSubscription with _ | h0 <;>
    rw [htk] at h <;> simp only [] at h <;> omega

/-- C6: from an idle state (no ticker subscription, no live ticker binding
on the bus), startRoute followed immediately by endRoute leaves the ticker
subscription handle null, the current accepted sample null, and zero live
ticker subscriptions on the bus. -/
theorem start_then_end_round_trip (env envE : Env) (sys : Sys)
    (htick : sys.mod.tickerSubscription = none)
    (hcount : sys.bus.countTopic tickerTopic = 0)
    (hsub : env.subscribeThrow = none) (hunsub : envE.unsubscribeThrow = none) :
    (endRoute envE (startRoute env sys).1).1.mod.tickerSubscription = none ∧
      (endRoute envE (startRoute env sys).1).1.mod.currentTelemetry = none ∧
      (endRoute envE (startRoute env sys).1).1.bus.countTopic tickerTopic = 0 := by
  have hpres := (sendTelemetry_preserves_handles true env (unloadConfig sys.mod)).1
  have htk1 : (sendTelemetry true env (unloadConfig sys.mod)).1.tickerSubscription = none := by
    rw [hpres]; exact htick
  have hs1 : (startRoute env sys).1 =
      { bus := (sys.bus.subscribe tickerTopic).2,
        mod := { (sendTelemetry true env (unloadConfig sys.mod)).1 with
                 tickerSubscription := some (sys.bus.subscribe tickerTopic).1 } } := by
    simp [startRoute, startRouteBody, htk1, hsub]
  rw [hs1]
  have hzero :
      ((sys.bus.subscribe tickerTopic).2.unsubscribe
          (sys.bus.subscribe tickerTopic).1).countTopic tickerTopic = 0 := by
    have hle : (sys.bus.active.filter fun q : Nat × String =>
          q.1 != sys.bus.nextHandle).countP
            (fun q : Nat × String => q.2 == tickerTopic) ≤
        sys.bus.active.countP (fun q : Nat × String => q.2 == tickerTopic) :=
      (List.filter_sublist sys.bus.active).countP_le _
    unfold BusState.countTopic at hcount
    simp only [BusState.subscribe, BusState.unsubscribe, BusState.countTopic,
      List.filter_cons, bne_self_eq_false, Bool.false_eq_true, if_false]
    omega
  simp [endRoute, endRouteBody, unloadConfig, hunsub, hzero]

theorem start_then_end_round_trip_witness :
    (endRoute envB (startRoute envB initialSys).1).1.mod.tickerSubscription = none ∧
      (endRoute envB (startRoute envB initialSys).1).1.mod.currentTelemetry = none ∧
      (endRoute envB (startRoute envB initialSys).1).1.bus.countTopic tickerTopic = 0 :=
  start_then_end_round_trip envB envB initialSys rfl (by decide) rfl rfl

/-- C7: enabling autoSend twice from the initial state yields exactly one
live vehicle-on subscription and one live vehicle-off subscription; the
second call changes neither the bus nor the stored handles and raises no
error. -/
theorem autoSend_enable_twice_idempotent (env env2 : Env)
    (hsub : env.subscribeThrow = none) :
    (autoSend true env2 (autoSend true env initialSys).sys).sys =
        (autoSend true env initialSys).sys ∧
      (autoSend true env initialSys).sys.bus.countTopic vehicleOnTopic = 1 ∧
      (autoSend true env initialSys).sys.bus.countTopic vehicleOffTopic = 1 ∧
      (autoSend true env2 (autoSend true env initialSys).sys).err = none := by
  have h1 : (autoSend true env initialSys).sys =
      { bus := { nextHandle := 2, active := [(1, vehicleOffTopic), (0, vehicleOnTopic)] },
        mod := { initialModuleState with
                 vehicleOnSubscription := some 0
                 vehicleOffSubscription := some 1 } } := by
    simp [autoSend, autoSendOn, autoSendOff, hsub, initialSys, initialBus,
      initialModuleState, BusState.subscribe]
  rw [h1]
  refine ⟨?_, by decide, by decide, ?_⟩ <;>
    simp [autoSend, autoSendOn, autoSendOff, initialModuleState]

theorem autoSend_enable_twice_idempotent_witness :
    (autoSend true envB (autoSend true envB initialSys).sys).sys =
        (autoSend true envB initialSys).sys ∧
      (autoSend true envB initialSys).sys.bus.countTopic vehicleOnTopic = 1 ∧
      (autoSend true envB initialSys).sys.bus.countTopic vehicleOffTopic = 1 ∧
      (autoSend true envB (autoSend true envB initialSys).sys).err = none :=
  autoSend_enable_twice_idempotent envB envB rfl

/-- An error value used by fault-injecting witnesses. -/
def errBoom : JsError := { message := "boom" }

/-- An environment in which the metric reads, PubSub.subscribe and
PubSub.unsubscribe all throw. -/
def envBoom : Env :=
  { envB with
    metricsThrow := some errBoom
    subscribeThrow := some errBoom
    unsubscribeThrow := some errBoom }

/-- A system holding a live ticker subscription. -/
def sysTicker : Sys :=
  { bus := { nextHandle := 1, active := [(0, tickerTopic)] },
    mod := { initialModuleState with tickerSubscription := some 0 } }

/-- C8: whenever the unprotected body of the sample-and-send cycle, of
startRoute or of endRoute raises an exception, the operation catches it at
its own boundary and returns normally with the state the body reached and
its effects extended by exactly a log line and an error-severity user
notification; the operations are total, so no exception reaches a caller. -/
theorem operations_catch_all_errors
    (force : Bool) (env : Env) (st : ModuleState) (sys1 sys2 : Sys)
    (e1 e2 e3 : JsError)
    (h1 : (sendTelemetryBody force env st).err = some e1)
    (h2 : (startRouteBody env sys1).err = some e2)
    (h3 : (endRouteBody env sys2).err = some e3) :
    sendTelemetry force env st =
      ((sendTelemetryBody force env st).st,
        (sendTelemetryBody force env st).effects ++ handleError e1 "Send telemetry") ∧
      startRoute env sys1 =
        ((startRouteBody env sys1).sys,
          (startRouteBody env sys1).effects ++ handleError e2 "Start route") ∧
      endRoute env sys2 =
        ((endRouteBody env sys2).sys,
          (endRouteBody env sys2).effects ++ handleError e3 "End route") := by
  refine ⟨?_, ?_, ?_⟩
  · simp [sendTelemetry, h1]
  · simp [startRoute, h2]
  · simp [endRoute, h3]

theorem operations_catch_all_errors_witness :
    ((sendTelemetryBody false envBoom initialModuleState).err = some errBoom ∧
        (startRouteBody envBoom initialSys).err = some errBoom ∧
        (endRouteBody envBoom sysTicker).err = some errBoom) ∧
      (sendTelemetry false envBoom initialModuleState =
          ((sendTelemetryBody false envBoom initialModuleState).st,
            (sendTelemetryBody false envBoom initialModuleState).effects ++
              handleError errBoom "Send telemetry") ∧
        startRoute envBoom initialSys =
          ((startRouteBody envBoom initialSys).sys,
            (startRouteBody envBoom initialSys).effects ++
              handleError errBoom "Start route") ∧
        endRoute envBoom sysTicker =
          ((endRouteBody envBoom sysTicker).sys,
            (endRouteBody envBoom sysTicker).effects ++
              handleError errBoom "End route")) :=
  ⟨⟨rfl, rfl, rfl⟩,
    operations_catch_all_errors false envBoom initialModuleState initialSys sysTicker
      errBoom errBoom errBoom rfl rfl rfl⟩

/-- C9: the transport failure callback leaves every piece of session state
untouched - the ticker subscription handle, the memoized configuration,
the current accepted sample, and the whole bus - and emits exactly a log
line plus an error-severity user notification. -/
theorem transport_failure_leaves_state_unchanged (e : JsError) (sys : Sys) :
    (updateAbrpOnFail e sys).1.mod.tickerSubscription = sys.mod.tickerSubscription ∧
      (updateAbrpOnFail e sys).1.mod.configuration = sys.mod.configuration ∧
      (updateAbrpOnFail e sys).1.mod.currentTelemetry = sys.mod.currentTelemetry ∧
      (updateAbrpOnFail e sys).1.bus = sys.bus ∧
      (updateAbrpOnFail e sys).2 =
        [Effect.log "HTTP request error",
          Effect.notify "error" "usr.abrp.status" ("HTTP request error  - " ++ e.message)] :=
  ⟨rfl, rfl, rfl, rfl, rfl⟩

/-- sampleB with only unwatched fields (speed, utc) changed. -/
def sampleD : Telemetry := { sampleB with speed := 42, utc := 101 }

/-- A fault-free environment producing sampleD. -/
def envC : Env := { envB with sample := sampleD }

/-- C10: when the unforced gate accepts a fault-free cycle, the current
telemetry is committed to the new sample and the commit precedes the HTTP
send in the effect trace; neither transport callback - the failure one nor
the success one at any status code - reverts the committed sample; and a
subsequent unforced cycle whose sample agrees with the failed one on every
watched field issues no HTTP send at all. -/
theorem commit_before_send_and_no_resend_after_failure
    (env envNext : Env) (st : ModuleState) (b : BusState) (e : JsError)
    (hm : env.metricsThrow = none) (hh : env.httpThrow = none)
    (hacc : shouldSend st.currentTelemetry env.sample false = true)
    (hm2 : envNext.metricsThrow = none)
    (hsame : watchedDiffers env.sample envNext.sample = false) :
    (sendTelemetry false env st).1.currentTelemetry = some env.sample ∧
      (∃ pre mid post, (sendTelemetry false env st).2 =
        pre ++ Effect.commitTelemetry env.sample :: mid ++
          Effect.httpSend env.sample :: post) ∧
      (updateAbrpOnFail e
          { bus := b, mod := (sendTelemetry false env st).1 }).1.mod.currentTelemetry
        = some env.sample ∧
      (∀ code : Int, (updateAbrpOnDone code
          { bus := b, mod := (sendTelemetry false env st).1 }).1.mod.currentTelemetry
        = some env.sample) ∧
      (∀ t, Effect.httpSend t ∉
        (sendTelemetry false envNext (sendTelemetry false env st).1).2) := by
  have hval := watchedDiffers_false_isValid env.sample envNext.sample hsame
  rcases hcfg : st.configuration with _ | c
  · have hrun : sendTelemetry false env st =
        ({ st with
           currentTelemetry := some env.sample
           configuration := some env.configValues },
          [Effect.log "Config", Effect.commitTelemetry env.sample,
            Effect.log ("Sending to " ++ env.configValues.url),
            Effect.httpSend env.sample]) := by
      simp [sendTelemetry, sendTelemetryBody, getTelemetry, loadConfig, updateAbrp,
        hm, hh, hcfg, hacc]
    rw [hrun]
    refine ⟨rfl, ⟨[Effect.log "Config"],
      [Effect.log ("Sending to " ++ env.configValues.url)], [], rfl⟩, rfl,
      fun _ => rfl, ?_⟩
    intro t
    simp [sendTelemetry, sendTelemetryBody, getTelemetry, loadConfig, hm2,
      shouldSend, hval]
  · have hrun : sendTelemetry false env st =
        ({ st with currentTelemetry := some env.sample },
          [Effect.commitTelemetry env.sample,
            Effect.log ("Sending to " ++ c.url),
            Effect.httpSend env.sample]) := by
      simp [sendTelemetry, sendTelemetryBody, getTelemetry, loadConfig, updateAbrp,
        hm, hh, hcfg, hacc]
    rw [hrun]
    refine ⟨rfl, ⟨[], [Effect.log ("Sending to " ++ c.url)], [], rfl⟩, rfl,
      fun _ => rfl, ?_⟩
    intro t
    simp [sendTelemetry, sendTelemetryBody, getTelemetry, loadConfig, hm2, hcfg,
      shouldSend, hval]

theorem commit_before_send_and_no_resend_after_failure_witness :
    (envB.metricsThrow = none ∧ envB.httpThrow = none ∧
        shouldSend initialModuleState.currentTelemetry envB.sample false = true ∧
        envC.metricsThrow = none ∧
        watchedDiffers envB.sample envC.sample = false) ∧
      ((sendTelemetry false envB initialModuleState).1.currentTelemetry
          = some envB.sample ∧
        (∃ pre mid post, (sendTelemetry false envB initialModuleState).2 =
          pre ++ Effect.commitTelemetry envB.sample :: mid ++
            Effect.httpSend envB.sample :: post) ∧
        (updateAbrpOnFail errBoom
            { bus := initialBus,
              mod := (sendTelemetry false envB initialModuleState).1 }).1.mod.currentTelemetry
          = some envB.sample ∧
        (∀ code : Int, (updateAbrpOnDone code
            { bus := initialBus,
              mod := (sendTelemetry false envB initialModuleState).1 }).1.mod.currentTelemetry
          = some envB.sample) ∧
        (∀ t, Effect.httpSend t ∉
          (sendTelemetry false envC
            (sendTelemetry false envB initialModuleState).1).2)) :=
  ⟨⟨rfl, rfl, rfl, rfl, by decide⟩,
    commit_before_send_and_no_resend_after_failure envB envC initialModuleState
      initialBus errBoom rfl rfl rfl rfl (by decide)⟩

/-- The body of startRoute in the abrp2 variant (src/unnamed/part_000,
lines 181 to 191): clear the current telemetry and the configuration, then
subscribe to the ticker topic UNCONDITIONALLY - there is no guard on the
held handle, so the stored handle is overwritten and any previous ticker
subscription is leaked on the bus. -/
def startRouteAbrp2Body (env : Env) (sys : Sys) : SysOutcome :=
  let st1 := { sys.mod with currentTelemetry := none, configuration := none }
  match env.subscribeThrow with
  | some e => { err := some e, sys := { sys with mod := st1 }, effects := [] }
  | none =>
      let s := sys.bus.subscribe tickerTopic
      { err := none,
        sys := { bus := s.2, mod := { st1 with tickerSubscription := some s.1 } },
        effects := [.log "ABRP::Starting route - subscribed to interval topic",
          .notify "info" "usr.abrp.status" "ABRP route started"] }

/-- startRoute of the abrp2 variant: the body wrapped in try/catch. -/
def startRouteAbrp2 (env : Env) (sys : Sys) : Sys × List Effect :=
  let o := startRouteAbrp2Body env sys
  match o.err with
  | none => (o.sys, o.effects)
  | some e => (o.sys, o.effects ++ handleError e "Start route")

/-- C5: the claim fails in the cited abrp2 variant, whose startRoute
subscribes without the handle guard: two consecutive startRoute calls with
no endRoute between them, evaluated from the initial state, leave TWO live
ticker subscriptions on the bus, and the stored handle names only the
second one, so the first can never be unsubscribed. -/
theorem abrp2_double_start_two_ticker_subscriptions :
    (startRouteAbrp2 envB (startRouteAbrp2 envB initialSys).1).1.bus.countTopic
        tickerTopic = 2 ∧
      (startRouteAbrp2 envB
        (startRouteAbrp2 envB initialSys).1).1.mod.tickerSubscription = some 1 := by
  refine ⟨?_, ?_⟩ <;> decide
